import Mathlib

/-!
Shallow embedding of the Iceberg Metadata Insights dashboard
(`src/app.py`) together with the parts of its connection layer
(`utils/connection.py`, absent from the sources) that are modelled from
the specification. The engine (Trino) is modelled as a function from a
query string to either an error message or a list of rows.
-/

namespace IcebergInsights

/-- A result row as returned by the engine: a list of cell values. -/
abbrev Row := List String

/-- The SQL engine, modelled as a map from query text to either an error
message (an engine exception, carrying `str(e)`) or a result set. -/
abbrev Engine := String → Except String (List Row)

/-- The fixed set of metadata-view selectors served by the dashboard's
dataframe tabs (`src/app.py`, tabs 1-11; tab 0, Show DDL, renders raw
text and is modelled separately by `ddlQuery`). -/
inductive MetaView
  | properties
  | history
  | manifests
  | all_manifests
  | metadata_log_entries
  | snapshots
  | partitions
  | files
  | entries
  | all_entries
  | refs
deriving DecidableEq, Fintype

/-- Query text built for each metadata view, transcribed from the
f-strings of `src/app.py` (lines 182-375): identifiers are spliced raw
into the text. -/
def viewQuery (schema table : String) : MetaView → String
  | MetaView.properties =>
      "SELECT * FROM " ++ schema ++ ".\"" ++ table ++ "$properties\""
  | MetaView.history =>
      "SELECT * FROM " ++ schema ++ ".\"" ++ table ++ "$history\""
  | MetaView.manifests =>
      "SELECT * FROM " ++ schema ++ ".\"" ++ table ++ "$manifests\""
  | MetaView.all_manifests =>
      "SELECT * FROM " ++ schema ++ ".\"" ++ table ++ "$all_manifests\""
  | MetaView.metadata_log_entries =>
      "SELECT * FROM " ++ schema ++ ".\"" ++ table ++ "$metadata_log_entries\""
  | MetaView.snapshots =>
      "SELECT * FROM " ++ schema ++ ".\"" ++ table ++ "$snapshots\""
  | MetaView.partitions =>
      "SELECT * FROM " ++ schema ++ ".\"" ++ table ++ "$partitions\""
  | MetaView.files =>
      "\n                        SELECT content, file_path, record_count, file_format, file_size_in_bytes\n                        FROM "
        ++ schema ++ ".\"" ++ table ++ "$files\"\n                    "
  | MetaView.entries =>
      "SELECT status, snapshot_id, sequence_number, file_sequence_number, data_file, readable_metrics FROM "
        ++ schema ++ ".\"" ++ table ++ "$entries\""
  | MetaView.all_entries =>
      "SELECT status, snapshot_id, sequence_number, file_sequence_number, data_file, readable_metrics FROM "
        ++ schema ++ ".\"" ++ table ++ "$all_entries\""
  | MetaView.refs =>
      "SELECT * FROM " ++ schema ++ ".\"" ++ table ++ "$refs\""

/-- The dataframe column names each tab of `src/app.py` attaches to the
rows of its view (the `columns=[...]` lists, lines 182-375). -/
def appColumns : MetaView → List String
  | MetaView.properties => ["Key", "Value"]
  | MetaView.history =>
      ["Made Current At", "Snapshot ID", "Parent ID", "Is Current Ancestor"]
  | MetaView.manifests =>
      ["Path", "Length", "Partition Spec ID", "Added Snapshot ID",
       "Added Data Files Count", "Existing Data Files Count",
       "Deleted Data Files Count", "Added Position Deletes Count",
       "Existing Position Deletes Count", "Deleted Position Deletes Count",
       "Partitions"]
  | MetaView.all_manifests =>
      ["Path", "Length", "Partition Spec ID", "Added Snapshot ID",
       "Added Data Files Count", "Existing Data Files Count",
       "Deleted Data Files Count", "Partition Summaries"]
  | MetaView.metadata_log_entries =>
      ["Timestamp", "File", "Latest Snapshot ID", "Latest Schema ID",
       "Latest Sequence Number"]
  | MetaView.snapshots =>
      ["Committed At", "Snapshot ID", "Parent ID", "Operation",
       "Manifest List", "Summary"]
  | MetaView.partitions =>
      ["Record Count", "File Count", "Total Size", "Data"]
  | MetaView.files =>
      ["Content", "File Path", "Record Count", "File Format",
       "File Size (Bytes)"]
  | MetaView.entries =>
      ["Status", "Snapshot ID", "Seq Num", "File Seq Num", "Data File",
       "Readable Metrics"]
  | MetaView.all_entries =>
      ["Status", "Snapshot ID", "Seq Num", "File Seq Num", "Data File",
       "Readable Metrics"]
  | MetaView.refs =>
      ["Name", "Type", "Snapshot ID", "Max Reference Age (ms)",
       "Min Snapshots to Keep", "Max Snapshot Age (ms)"]

/-- The column schema table of spec section 6, written out for the
refinement comparison with `appColumns` (the compressed
Added/Existing/Deleted groups expanded in order). -/
def specColumns : MetaView → List String
  | MetaView.properties => ["Key", "Value"]
  | MetaView.history =>
      ["Made Current At", "Snapshot ID", "Parent ID", "Is Current Ancestor"]
  | MetaView.manifests =>
      ["Path", "Length", "Partition Spec ID",
       "Added Data Files Count", "Existing Data Files Count",
       "Deleted Data Files Count", "Added Position Deletes Count",
       "Existing Position Deletes Count", "Deleted Position Deletes Count",
       "Partitions"]
  | MetaView.all_manifests =>
      ["Path", "Length", "Partition Spec ID", "Added Snapshot ID",
       "Added Data Files Count", "Existing Data Files Count",
       "Deleted Data Files Count", "Partition Summaries"]
  | MetaView.metadata_log_entries =>
      ["Timestamp", "File", "Latest Snapshot ID", "Latest Schema ID",
       "Latest Sequence Number"]
  | MetaView.snapshots =>
      ["Committed At", "Snapshot ID", "Parent ID", "Operation",
       "Manifest List", "Summary"]
  | MetaView.partitions =>
      ["Record Count", "File Count", "Total Size", "Data"]
  | MetaView.files =>
      ["Content", "File Path", "Record Count", "File Format",
       "File Size (Bytes)"]
  | MetaView.entries =>
      ["Status", "Snapshot ID", "Seq Num", "File Seq Num", "Data File",
       "Readable Metrics"]
  | MetaView.all_entries =>
      ["Status", "Snapshot ID", "Seq Num", "File Seq Num", "Data File",
       "Readable Metrics"]
  | MetaView.refs =>
      ["Name", "Type", "Snapshot ID", "Max Reference Age (ms)",
       "Min Snapshots to Keep", "Max Snapshot Age (ms)"]

/-- The error-message label each tab prepends via
`st.error(f"Error loading X: ...")` in `src/app.py`. -/
def errorLabel : MetaView → String
  | MetaView.properties => "Error loading properties: "
  | MetaView.history => "Error loading history: "
  | MetaView.manifests => "Error loading manifests: "
  | MetaView.all_manifests => "Error loading all manifests: "
  | MetaView.metadata_log_entries => "Error loading metadata log: "
  | MetaView.snapshots => "Error loading snapshots: "
  | MetaView.partitions => "Error loading partitions: "
  | MetaView.files => "Error loading files: "
  | MetaView.entries => "Error loading entries: "
  | MetaView.all_entries => "Error loading all entries: "
  | MetaView.refs => "Error loading references: "

/-- What a metadata tab displays: either a dataframe (columns and rows)
or a locally caught error message. -/
inductive TabOutcome
  | shown (columns : List String) (rows : List Row)
  | errorShown (msg : String)
deriving DecidableEq

/-- One metadata tab of `src/app.py`: the view's query is executed inside
that tab's own try/except, so an engine exception becomes that tab's
`st.error` message and nothing propagates. -/
def renderTab (engine : Engine) (schema table : String) (v : MetaView) : TabOutcome :=
  match engine (viewQuery schema table v) with
  | Except.ok rows => TabOutcome.shown (appColumns v) rows
  | Except.error e => TabOutcome.errorShown (errorLabel v ++ e)

/-- Query text of the Show DDL tab (`src/app.py` line 175). -/
def ddlQuery (schema table : String) : String :=
  "show create table " ++ schema ++ "." ++ table

/-- Query text of the Analyze Table button (`src/app.py` line 52). -/
def analyzeQuery (schema table : String) : String :=
  "ANALYZE " ++ schema ++ "." ++ table

/-- The Analyze Table action of `src/app.py` (lines 50-53): the ANALYZE
statement is executed directly on the cursor with no surrounding
try/except, so an engine error propagates out unchanged instead of being
converted into a structured result. -/
def analyze_table_action (engine : Engine) (schema table : String) :
    Except String Unit :=
  match engine (analyzeQuery schema table) with
  | Except.ok _ => Except.ok ()
  | Except.error e => Except.error e

/-- Maintenance operation string for the Optimize/Vacuum button
(`src/app.py` line 58): the 128MB target is a literal inside the string. -/
def optimizeOp : String := "optimize(file_size_threshold => '128MB')"

/-- Maintenance operation string for Optimize Manifests (line 63). -/
def optimizeManifestsOp : String := "optimize_manifests"

/-- Maintenance operation string for Expire Snapshots (line 71): the 7d
retention threshold is a literal inside the string. -/
def expireSnapshotsOp : String := "expire_snapshots(retention_threshold => '7d')"

/-- Maintenance operation string for Remove Orphan Files (line 80). -/
def removeOrphanFilesOp : String := "remove_orphan_files(retention_threshold => '7d')"

/-- Maintenance operation string for Drop Extended Stats (line 85). -/
def dropExtendedStatsOp : String := "drop_extended_stats"

/-- Outcome classification of one maintenance invocation (spec section 3,
MaintenanceResult). -/
inductive MaintenanceOutcome
  | success
  | failed
deriving DecidableEq

/-- Structured result of one maintenance invocation (spec section 3). -/
structure MaintenanceResult where
  procedure_name : String
  table_identifier : String
  outcome : MaintenanceOutcome
  error_message : Option String
deriving DecidableEq

/-- ALTER-style call text issued for a maintenance procedure against
schema.table (spec section 6). -/
def alterQuery (schema table op : String) : String :=
  "ALTER TABLE " ++ schema ++ "." ++ table ++ " EXECUTE " ++ op

/-- Modelled from the spec: `execute_alter_table` lives in
`utils/connection.py`, which is not among the sources; per spec sections
4.4 and 7 it issues the alteration call, and on engine error returns
outcome = failed carrying the engine's message verbatim, never raising
past the orchestrator boundary (here: a total function into
`MaintenanceResult`). -/
def execute_alter_table (engine : Engine) (schema table op : String) :
    MaintenanceResult :=
  match engine (alterQuery schema table op) with
  | Except.ok _ =>
      ⟨op, schema ++ "." ++ table, MaintenanceOutcome.success, none⟩
  | Except.error e =>
      ⟨op, schema ++ "." ++ table, MaintenanceOutcome.failed, some e⟩

/-- One physical data/delete file's metadata row (spec section 3,
FileRecord). -/
structure FileRecord where
  path : String
  size_in_bytes : Nat
  record_count : Nat
  file_format : String
  content_type : String
deriving DecidableEq

/-- One mebibyte in bytes: the unit used for MB-valued statistics
(spec section 4.2). -/
def MBytes : Nat := 1048576

/-- The small-file threshold: 100 MB (spec section 4.2). -/
def smallFileThresholdBytes : Nat := 100 * MBytes

/-- File sizes of a record sequence, as rationals (bytes). -/
def sizesQ (fs : List FileRecord) : List ℚ :=
  fs.map (fun f => (f.size_in_bytes : ℚ))

/-- Modelled from the spec: `fetch_stats` lives in `utils/connection.py`,
absent from the sources; spec section 4.2: file_count is the number of
input records. -/
def file_count (fs : List FileRecord) : Nat := fs.length

/-- Modelled from the spec (section 4.2): row_count is the sum of
record_count. -/
def row_count (fs : List FileRecord) : Nat :=
  (fs.map (fun f => f.record_count)).sum

/-- Modelled from the spec (section 4.2): count of files strictly below
the 100 MB threshold. -/
def small_file_count (fs : List FileRecord) : Nat :=
  fs.countP (fun f => f.size_in_bytes < smallFileThresholdBytes)

/-- Modelled from the spec (section 4.2): mean file size in bytes,
defaulting to 0 for an empty sequence. -/
def meanBytes (fs : List FileRecord) : ℚ :=
  if fs.length = 0 then 0 else (sizesQ fs).sum / (fs.length : ℚ)

/-- Modelled from the spec (section 4.2): average file size in MB,
defaulting to 0 when file_count = 0. -/
def avg_file_size_mb (fs : List FileRecord) : ℚ :=
  if fs.length = 0 then 0 else meanBytes fs / (MBytes : ℚ)

/-- Largest file size in bytes (0 for an empty sequence). -/
def maxSizeBytes (fs : List FileRecord) : Nat :=
  (fs.map (fun f => f.size_in_bytes)).foldr max 0

/-- Smallest file size in bytes (0 for an empty sequence). -/
def minSizeBytes : List FileRecord → Nat
  | [] => 0
  | f :: rest => rest.foldl (fun m g => min m g.size_in_bytes) f.size_in_bytes

/-- Modelled from the spec (section 4.2): maximum file size in MB,
defaulting to 0 when file_count = 0. -/
def max_file_size_mb (fs : List FileRecord) : ℚ :=
  if fs.length = 0 then 0 else (maxSizeBytes fs : ℚ) / (MBytes : ℚ)

/-- Modelled from the spec (section 4.2): minimum file size in MB,
defaulting to 0 when file_count = 0. -/
def min_file_size_mb (fs : List FileRecord) : ℚ :=
  if fs.length = 0 then 0 else (minSizeBytes fs : ℚ) / (MBytes : ℚ)

/-- Modelled from the spec (section 4.2): row_count / file_count,
defaulting to 0 when file_count = 0. -/
def avg_records_per_file (fs : List FileRecord) : ℚ :=
  if fs.length = 0 then 0 else (row_count fs : ℚ) / (fs.length : ℚ)

/-- Modelled from the spec (section 4.2): population variance of file
size in bytes squared — the mean of squared deviations from the mean —
defaulting to 0 when file_count is at most 1. -/
def variance_file_size_bytes2 (fs : List FileRecord) : ℚ :=
  if fs.length ≤ 1 then 0
  else ((sizesQ fs).map (fun x => (x - meanBytes fs) ^ 2)).sum / (fs.length : ℚ)

/-- Characterisation of the standard deviation of file size (bytes):
`s` is the stddev of `fs` when it is the nonnegative square root of the
population variance (spec section 4.2: stddev = square root of
variance, 0 when file_count is at most 1). -/
def IsStddevOf (s : ℚ) (fs : List FileRecord) : Prop :=
  0 ≤ s ∧ s ^ 2 = variance_file_size_bytes2 fs

/-- Snapshot operation kind (spec section 3, SnapshotEvent). -/
inductive SnapOperation
  | append
  | overwrite
  | replace
  | delete
deriving DecidableEq

/-- One snapshot-history row (spec section 3, SnapshotEvent);
committed_at is modelled as a (millisecond) timestamp. -/
structure SnapshotEvent where
  snapshot_id : Nat
  parent_id : Option Nat
  operation : SnapOperation
  committed_at : Nat
  summary : List (String × String)
deriving DecidableEq

/-- Modelled from the spec: `load_snapshot_history` lives in
`utils/connection.py`, absent from the sources; spec section 4.3: the
TimelineProjector returns the input sorted ascending by committed_at with
a stable sort, each element paired with a display color/grouping key equal
to its operation. -/
def load_snapshot_history (evs : List SnapshotEvent) :
    List (SnapshotEvent × SnapOperation) :=
  (List.insertionSort (fun a b => a.committed_at ≤ b.committed_at) evs).map
    (fun e => (e, e.operation))

/-- The worked example of spec section 8: two data files of 100 MB and
300 MB. -/
def exampleFiles : List FileRecord :=
  [⟨"f1", 104857600, 0, "PARQUET", "data"⟩,
   ⟨"f2", 314572800, 0, "PARQUET", "data"⟩]

/-- Filtering by one committed_at value commutes with `orderedInsert` of
an element whose committed_at differs from that value. -/
theorem filter_orderedInsert_commit_ne (t : Nat) (a : SnapshotEvent)
    (l : List SnapshotEvent) (ha : a.committed_at ≠ t) :
    (List.orderedInsert (fun x y => x.committed_at ≤ y.committed_at) a l).filter
        (fun e => e.committed_at == t)
      = l.filter (fun e => e.committed_at == t) := by
  induction l with
  | nil => simp [List.orderedInsert, ha]
  | cons b l ih =>
      rw [List.orderedInsert]
      by_cases h : a.committed_at ≤ b.committed_at
      · rw [if_pos h]
        simp [List.filter_cons, ha]
      · rw [if_neg h]
        simp [List.filter_cons, ih]

/-- Filtering by the committed_at value of the inserted element: in a
sorted list, `orderedInsert` places the new element before every element
sharing its committed_at. -/
theorem filter_orderedInsert_commit_eq (t : Nat) (a : SnapshotEvent)
    (l : List SnapshotEvent)
    (hl : l.Sorted (fun x y => x.committed_at ≤ y.committed_at))
    (ha : a.committed_at = t) :
    (List.orderedInsert (fun x y => x.committed_at ≤ y.committed_at) a l).filter
        (fun e => e.committed_at == t)
      = a :: l.filter (fun e => e.committed_at == t) := by
  induction l with
  | nil => simp [List.orderedInsert, ha]
  | cons b l ih =>
      rw [List.orderedInsert]
      by_cases h : a.committed_at ≤ b.committed_at
      · rw [if_pos h]
        simp [List.filter_cons, ha]
      · rw [if_neg h]
        have hb : b.committed_at ≠ t := by
          have hba := List.rel_of_sorted_cons hl
          omega
        simp [List.filter_cons, hb, ih hl.of_cons]

/-- Stability of the commit-time insertion sort: filtering the sorted
list by any committed_at value yields exactly the input filtered by that
value, in input order. -/
theorem filter_insertionSort_commit (t : Nat) (l : List SnapshotEvent) :
    (List.insertionSort (fun x y => x.committed_at ≤ y.committed_at) l).filter
        (fun e => e.committed_at == t)
      = l.filter (fun e => e.committed_at == t) := by
  haveI : IsTotal SnapshotEvent (fun x y => x.committed_at ≤ y.committed_at) :=
    ⟨fun a b => Nat.le_total _ _⟩
  haveI : IsTrans SnapshotEvent (fun x y => x.committed_at ≤ y.committed_at) :=
    ⟨fun _ _ _ hab hbc => Nat.le_trans hab hbc⟩
  induction l with
  | nil => rfl
  | cons a l ih =>
      rw [List.insertionSort]
      by_cases ha : a.committed_at = t
      · rw [filter_orderedInsert_commit_eq t a _
            (List.sorted_insertionSort _ l) ha, ih]
        simp [List.filter_cons, ha]
      · rw [filter_orderedInsert_commit_ne t a _ ha, ih]
        simp [List.filter_cons, ha]

/-- C1: a failure while fetching one metadata view is caught locally and
surfaced as that view's own error message, and does not prevent any other
view's request from succeeding: with the engine failing on two views and
succeeding on a third, the two failing tabs show their own messages and
the third shows its rows. -/
theorem metadata_tab_failures_are_isolated
    (engine : Engine) (schema table : String) (v₁ v₂ v₃ : MetaView)
    (e₁ e₂ : String) (rows : List Row)
    (h₁ : engine (viewQuery schema table v₁) = Except.error e₁)
    (h₂ : engine (viewQuery schema table v₂) = Except.error e₂)
    (h₃ : engine (viewQuery schema table v₃) = Except.ok rows) :
    renderTab engine schema table v₁
        = TabOutcome.errorShown (errorLabel v₁ ++ e₁)
    ∧ renderTab engine schema table v₂
        = TabOutcome.errorShown (errorLabel v₂ ++ e₂)
    ∧ renderTab engine schema table v₃
        = TabOutcome.shown (appColumns v₃) rows := by
  refine ⟨?_, ?_, ?_⟩ <;> simp [renderTab, h₁, h₂, h₃]

/-- Witness for C1 at a concrete engine failing on history and snapshots
and succeeding on properties. -/
theorem metadata_tab_failures_are_isolated_witness :
    renderTab
        (fun q =>
          if q = viewQuery "s" "t" MetaView.history then
            Except.error "history boom"
          else if q = viewQuery "s" "t" MetaView.snapshots then
            Except.error "snapshots boom"
          else Except.ok [["r"]])
        "s" "t" MetaView.history
      = TabOutcome.errorShown (errorLabel MetaView.history ++ "history boom")
    ∧ renderTab
        (fun q =>
          if q = viewQuery "s" "t" MetaView.history then
            Except.error "history boom"
          else if q = viewQuery "s" "t" MetaView.snapshots then
            Except.error "snapshots boom"
          else Except.ok [["r"]])
        "s" "t" MetaView.snapshots
      = TabOutcome.errorShown (errorLabel MetaView.snapshots ++ "snapshots boom")
    ∧ renderTab
        (fun q =>
          if q = viewQuery "s" "t" MetaView.history then
            Except.error "history boom"
          else if q = viewQuery "s" "t" MetaView.snapshots then
            Except.error "snapshots boom"
          else Except.ok [["r"]])
        "s" "t" MetaView.properties
      = TabOutcome.shown (appColumns MetaView.properties) [["r"]] :=
  metadata_tab_failures_are_isolated
    (fun q =>
      if q = viewQuery "s" "t" MetaView.history then
        Except.error "history boom"
      else if q = viewQuery "s" "t" MetaView.snapshots then
        Except.error "snapshots boom"
      else Except.ok [["r"]])
    "s" "t" MetaView.history MetaView.snapshots MetaView.properties
    "history boom" "snapshots boom" [["r"]] rfl rfl rfl

/-- C2: when the engine reports an error on a maintenance procedure
invocation, the orchestrator returns outcome = failed with the engine's
message verbatim as a non-empty error_message, and (being a total
function into MaintenanceResult) raises nothing past the boundary. -/
theorem maintenance_error_returns_failed_result
    (engine : Engine) (schema table op e : String)
    (h : engine (alterQuery schema table op) = Except.error e)
    (he : e ≠ "") :
    (execute_alter_table engine schema table op).outcome
        = MaintenanceOutcome.failed
    ∧ (execute_alter_table engine schema table op).error_message = some e
    ∧ (execute_alter_table engine schema table op).error_message ≠ some ""
    ∧ (execute_alter_table engine schema table op).error_message ≠ none := by
  unfold execute_alter_table
  rw [h]
  exact ⟨rfl, rfl, by simpa using he, by simp⟩

/-- Witness for C2: optimize against a table the engine rejects as
nonexistent. -/
theorem maintenance_error_returns_failed_result_witness :
    (execute_alter_table (fun _ => Except.error "Table does not exist")
        "s" "t" optimizeOp).outcome = MaintenanceOutcome.failed
    ∧ (execute_alter_table (fun _ => Except.error "Table does not exist")
        "s" "t" optimizeOp).error_message = some "Table does not exist"
    ∧ (execute_alter_table (fun _ => Except.error "Table does not exist")
        "s" "t" optimizeOp).error_message ≠ some ""
    ∧ (execute_alter_table (fun _ => Except.error "Table does not exist")
        "s" "t" optimizeOp).error_message ≠ none :=
  maintenance_error_returns_failed_result
    (fun _ => Except.error "Table does not exist") "s" "t" optimizeOp
    "Table does not exist" rfl (by decide)

/-- C3: on the empty file sequence every size-derived statistic equals
the defined default 0 (the rational-valued model is total, so no NaN and
no exception can arise). -/
theorem empty_stats_default_to_zero :
    avg_file_size_mb [] = 0
    ∧ max_file_size_mb [] = 0
    ∧ min_file_size_mb [] = 0
    ∧ avg_records_per_file [] = 0
    ∧ variance_file_size_bytes2 [] = 0
    ∧ IsStddevOf 0 [] :=
  ⟨rfl, rfl, rfl, rfl, rfl, le_refl 0, by simp [variance_file_size_bytes2]⟩

/-- C4: the variance computed by the stats aggregation is the population
variance (mean of squared deviations from the mean, in bytes), defaulting
to 0 for at most one file, and on the spec's example of a 100 MB and a
300 MB file it equals ((104857600-209715200)^2 + (314572800-209715200)^2)/2
with standard deviation exactly 104857600 bytes. -/
theorem variance_is_population_variance :
    (∀ fs : List FileRecord, fs.length ≤ 1 →
        variance_file_size_bytes2 fs = 0 ∧ IsStddevOf 0 fs)
    ∧ (∀ fs : List FileRecord, 2 ≤ fs.length →
        variance_file_size_bytes2 fs
          = ((sizesQ fs).map
                (fun x => (x - (sizesQ fs).sum / (fs.length : ℚ)) ^ 2)).sum
              / (fs.length : ℚ))
    ∧ variance_file_size_bytes2 exampleFiles
        = (((104857600 : ℚ) - 209715200) ^ 2
            + ((314572800 : ℚ) - 209715200) ^ 2) / 2
    ∧ IsStddevOf 104857600 exampleFiles := by
  refine ⟨fun fs h => ⟨?_, le_refl 0, ?_⟩, fun fs h => ?_, ?_, ?_, ?_⟩
  · simp [variance_file_size_bytes2, h]
  · simp [variance_file_size_bytes2, h]
  · have h1 : ¬ fs.length ≤ 1 := by omega
    have h0 : ¬ fs.length = 0 := by omega
    simp [variance_file_size_bytes2, meanBytes, h0, h1]
  · norm_num [variance_file_size_bytes2, meanBytes, sizesQ, exampleFiles]
  · norm_num
  · norm_num [IsStddevOf, variance_file_size_bytes2, meanBytes, sizesQ,
      exampleFiles]

/-- Witness for C4 at the empty list and at the spec's two-file example. -/
theorem variance_is_population_variance_witness :
    variance_file_size_bytes2 [] = 0
    ∧ variance_file_size_bytes2 exampleFiles
        = ((sizesQ exampleFiles).map
              (fun x =>
                (x - (sizesQ exampleFiles).sum / (exampleFiles.length : ℚ)) ^ 2)).sum
            / (exampleFiles.length : ℚ) :=
  ⟨(variance_is_population_variance.1 [] (by decide)).1,
   variance_is_population_variance.2.1 exampleFiles (by decide)⟩

/-- C5: small_file_count counts exactly the files strictly below
104857600 bytes, and is 0 when every file is at least 100 MB. -/
theorem small_file_count_counts_below_threshold (fs : List FileRecord) :
    small_file_count fs
        = (fs.filter (fun f => f.size_in_bytes < 104857600)).length
    ∧ ((∀ f ∈ fs, 104857600 ≤ f.size_in_bytes) → small_file_count fs = 0) := by
  have hthr : smallFileThresholdBytes = 104857600 := rfl
  constructor
  · rw [small_file_count, hthr, List.countP_eq_length_filter]
  · intro hall
    rw [small_file_count, hthr]
    exact List.countP_eq_zero.mpr fun f hf => by simpa using hall f hf

/-- Witness for C5 at a one-file list of 200 MB. -/
theorem small_file_count_counts_below_threshold_witness :
    small_file_count [⟨"a", 209715200, 10, "PARQUET", "data"⟩] = 0 :=
  (small_file_count_counts_below_threshold
      [⟨"a", 209715200, 10, "PARQUET", "data"⟩]).2 (by decide)

/-- C6: the timeline projection returns the input sorted ascending by
committed_at with a stable sort (filtering by any commit time recovers
the input's relative order), each element paired with a grouping key
equal to its operation. -/
theorem timeline_is_stable_sort_by_commit (evs : List SnapshotEvent) :
    List.Pairwise
        (fun p q : SnapshotEvent × SnapOperation =>
          p.1.committed_at ≤ q.1.committed_at)
        (load_snapshot_history evs)
    ∧ List.Perm ((load_snapshot_history evs).map Prod.fst) evs
    ∧ (∀ t : Nat,
        ((load_snapshot_history evs).map Prod.fst).filter
            (fun e => e.committed_at == t)
          = evs.filter (fun e => e.committed_at == t))
    ∧ (∀ p ∈ load_snapshot_history evs, p.2 = p.1.operation) := by
  haveI : IsTotal SnapshotEvent (fun x y => x.committed_at ≤ y.committed_at) :=
    ⟨fun a b => Nat.le_total _ _⟩
  haveI : IsTrans SnapshotEvent (fun x y => x.committed_at ≤ y.committed_at) :=
    ⟨fun _ _ _ hab hbc => Nat.le_trans hab hbc⟩
  have hmap : (load_snapshot_history evs).map Prod.fst
      = List.insertionSort (fun x y => x.committed_at ≤ y.committed_at) evs := by
    rw [load_snapshot_history, List.map_map]
    exact List.map_id _
  refine ⟨?_, ?_, ?_, ?_⟩
  · rw [load_snapshot_history, List.pairwise_map]
    exact List.sorted_insertionSort _ evs
  · rw [hmap]
    exact List.perm_insertionSort _ evs
  · intro t
    rw [hmap]
    exact filter_insertionSort_commit t evs
  · intro p hp
    simp only [load_snapshot_history, List.mem_map] at hp
    obtain ⟨e, _, rfl⟩ := hp
    rfl

/-- Witness for C6 at a concrete two-event history. -/
theorem timeline_is_stable_sort_by_commit_witness :
    ((⟨2, some 1, SnapOperation.delete, 5, []⟩ : SnapshotEvent),
        SnapOperation.delete).2
      = ((⟨2, some 1, SnapOperation.delete, 5, []⟩ : SnapshotEvent),
        SnapOperation.delete).1.operation :=
  (timeline_is_stable_sort_by_commit
      [⟨1, none, SnapOperation.append, 10, []⟩,
       ⟨2, some 1, SnapOperation.delete, 5, []⟩]).2.2.2
    (⟨2, some 1, SnapOperation.delete, 5, []⟩, SnapOperation.delete)
    (by decide)

/-- C7 counterexample: the manifests tab's columns in the source are not
the section 6 schema — the source carries an extra Added Snapshot ID
column. -/
theorem manifests_columns_differ_from_spec :
    appColumns MetaView.manifests ≠ specColumns MetaView.manifests := by
  decide

/-- C7 amended: every view except manifests carries exactly the section 6
columns in order; the manifests view carries them with Added Snapshot ID
inserted in fourth position. -/
theorem view_columns_match_spec_except_manifests :
    (∀ v : MetaView, v ≠ MetaView.manifests → appColumns v = specColumns v)
    ∧ appColumns MetaView.manifests
        = ["Path", "Length", "Partition Spec ID", "Added Snapshot ID",
           "Added Data Files Count", "Existing Data Files Count",
           "Deleted Data Files Count", "Added Position Deletes Count",
           "Existing Position Deletes Count", "Deleted Position Deletes Count",
           "Partitions"] := by
  constructor
  · intro v hv
    cases v <;> first | rfl | exact absurd rfl hv
  · rfl

/-- Witness for the amended C7 at the properties view. -/
theorem view_columns_match_spec_except_manifests_witness :
    appColumns MetaView.properties = specColumns MetaView.properties :=
  view_columns_match_spec_except_manifests.1 MetaView.properties (by decide)

/-- C8 counterexample: identifiers are spliced raw into the query text,
so two distinct (schema, table) pairs — one with quote characters in the
table name — produce the identical query string: identifier content does
alter query semantics. -/
theorem identifier_injection_counterexample :
    viewQuery "a" "b$properties\".\"c" MetaView.properties
      = viewQuery "a.\"b$properties\"" "c" MetaView.properties
    ∧ (("a", "b$properties\".\"c") : String × String)
        ≠ ("a.\"b$properties\"", "c") :=
  ⟨rfl, by decide⟩

/-- C8 amended: the metadata-view query text is built by raw string
interpolation of the identifiers, and the construction is not injective:
distinct identifier pairs (using quote characters) can yield identical
query text, so identifier content can alter query semantics. -/
theorem identifiers_spliced_raw_into_query :
    (∀ schema table : String,
        viewQuery schema table MetaView.properties
          = "SELECT * FROM " ++ schema ++ ".\"" ++ table ++ "$properties\"")
    ∧ ∃ s₁ t₁ s₂ t₂ : String,
        (s₁, t₁) ≠ (s₂, t₂)
        ∧ viewQuery s₁ t₁ MetaView.properties
            = viewQuery s₂ t₂ MetaView.properties :=
  ⟨fun _ _ => rfl,
   "a", "b$properties\".\"c", "a.\"b$properties\"", "c", by decide, rfl⟩

/-- C10: the Analyze Table action has no surrounding error handler: an
engine error on the ANALYZE statement propagates out unchanged rather
than being converted into a structured result. -/
theorem analyze_error_propagates_uncaught
    (engine : Engine) (schema table e : String)
    (h : engine (analyzeQuery schema table) = Except.error e) :
    analyze_table_action engine schema table = Except.error e := by
  unfold analyze_table_action
  rw [h]

/-- Witness for C10 at a concrete failing engine. -/
theorem analyze_error_propagates_uncaught_witness :
    analyze_table_action (fun _ => Except.error "no such table") "s" "t"
      = Except.error "no such table" :=
  analyze_error_propagates_uncaught
    (fun _ => Except.error "no such table") "s" "t" "no such table" rfl

end IcebergInsights
